import Mathlib

/-
Verification development for github-copilot-svcs.

This file gives a shallow embedding, in Lean 4, of the parts of the Go
source that the specification claims talk about:

  - internal/proxy.go   : circuit breaker, retry loop, request coalescing,
                          request-body cap, handler error dispatch
  - internal/config.go  : token refresh with backoff, proactive refresh
                          boundary, device-flow polling, single-check mode
  - the auth HTTP layer : stage-2 handler status dispatch
  - the worker pool     : worker loop and the proxy job closure

External effects (HTTP exchanges, the database, context cancellation,
clock readings) are passed in as explicit oracles so that every function
is executable and the control flow of the Go source is mirrored verbatim.
Machine integers are modelled as Nat/Int; Go byte slices as List Nat.
-/

namespace GCS

/-! ## Shared helpers -/

/-- Model of Go `strings.Contains s pat`: `pat` occurs in `s` as a
contiguous substring. -/
def containsSub (l pat : List Char) : Bool :=
  match l with
  | [] => pat.isEmpty
  | _ :: t => pat.isPrefixOf l || containsSub t pat

/-- Go `strings.Contains` on strings. -/
def strContains (s pat : String) : Bool :=
  containsSub s.toList pat.toList

/-! ## Constants from internal/proxy.go and internal/config.go -/

/-- proxy.go: `maxChatRetries = 3`. -/
def maxChatRetries : Nat := 3

/-- proxy.go: `baseChatRetryDelay = 1` (seconds). -/
def baseChatRetryDelay : Nat := 1

/-- proxy.go: `circuitBreakerFailureThreshold = 5`. -/
def circuitBreakerFailureThreshold : Nat := 5

/-- proxy.go: `maxRequestBodySize = 5 * 1024 * 1024`. -/
def maxRequestBodySize : Nat := 5 * 1024 * 1024

/-- config.go: `maxRefreshRetries = 3`. -/
def maxRefreshRetries : Nat := 3

/-- config.go: `baseRetryDelay = 2` (seconds). -/
def baseRetryDelay : Nat := 2

/-! ## Circuit breaker (internal/proxy.go, lines 251-295)

The Go struct carries a monotone wall-clock timestamp; we model the clock
as a Nat passed to each operation, with `time.Since lastFailureTime`
becoming `now - lastFailureTime` (the server clock is monotone, so
`now ≥ lastFailureTime` at every use). -/

/-- `CircuitBreakerState`: the Go constants CircuitClosed / CircuitOpen /
CircuitHalfOpen. (`opened` stands for Go `CircuitOpen`.) -/
inductive CBState where
  | closed
  | opened
  | halfOpen
  deriving DecidableEq, Repr

/-- The `CircuitBreaker` struct (mutex omitted: operations are serialized). -/
structure CircuitBreaker where
  failureCount : Nat
  lastFailureTime : Nat
  state : CBState
  timeout : Nat
  deriving DecidableEq, Repr

/-- `(cb *CircuitBreaker) canExecute()`: returns whether the request is
admitted, together with the (possibly updated) breaker. In state Open,
`time.Since(cb.lastFailureTime) > cb.timeout` flips to HalfOpen and admits;
otherwise the request is rejected. -/
def CircuitBreaker.canExecute (cb : CircuitBreaker) (now : Nat) :
    Bool × CircuitBreaker :=
  match cb.state with
  | .closed => (true, cb)
  | .opened =>
      if cb.timeout < now - cb.lastFailureTime then
        (true, { cb with state := .halfOpen })
      else
        (false, cb)
  | .halfOpen => (true, cb)

/-- `(cb *CircuitBreaker) onSuccess()`: reset the counter, close. -/
def CircuitBreaker.onSuccess (cb : CircuitBreaker) : CircuitBreaker :=
  { cb with failureCount := 0, state := .closed }

/-- `(cb *CircuitBreaker) onFailure()`: increment the counter, record the
failure time, and trip to Open once the counter reaches the threshold. -/
def CircuitBreaker.onFailure (cb : CircuitBreaker) (now : Nat) : CircuitBreaker :=
  let fc := cb.failureCount + 1
  { cb with
      failureCount := fc
      lastFailureTime := now
      state := if circuitBreakerFailureThreshold ≤ fc then .opened else cb.state }

/-- One observable interaction with the breaker: an admission check at a
given instant, or a recorded outcome of an upstream exchange. -/
inductive CBEvent where
  | check (now : Nat)
  | success
  | failure (now : Nat)
  deriving DecidableEq, Repr

/-- Apply one event to the breaker. -/
def cbStep (cb : CircuitBreaker) : CBEvent → CircuitBreaker
  | .check now => (cb.canExecute now).2
  | .success => cb.onSuccess
  | .failure now => cb.onFailure now

/-- Run a sequence of events. -/
def cbRun (cb : CircuitBreaker) : List CBEvent → CircuitBreaker
  | [] => cb
  | e :: es => cbRun (cbStep cb e) es

/-- The breaker as constructed by `NewProxyService`: Closed, zero counter. -/
def cbInit (timeout : Nat) : CircuitBreaker :=
  { failureCount := 0, lastFailureTime := 0, state := .closed, timeout := timeout }

/-- Breaker state reachable from the initial state through a trace. -/
def cbReach (timeout : Nat) (tr : List CBEvent) : CircuitBreaker :=
  cbRun (cbInit timeout) tr

/-! ## Retry loop (internal/proxy.go, lines 483-568)

`makeRequestWithRetry` is driven by an oracle `doReq` giving the outcome of
the n-th `httpClient.Do` call, and a `cancelled` oracle telling whether the
request context fires during the backoff wait that follows attempt n. -/

/-- Outcome of one `httpClient.Do` call. -/
inductive AttemptResult where
  | response (status : Nat)
  | transportError (msg : String)
  deriving DecidableEq, Repr

/-- `(s *ProxyService) isRetriableError(statusCode, err)`: network errors
are retriable; otherwise retry on `status >= 500 || status == 429 ||
status == 408`. -/
def isRetriableError (statusCode : Nat) (errPresent : Bool) : Bool :=
  if errPresent then true
  else decide (500 ≤ statusCode) || decide (statusCode = 429) || decide (statusCode = 408)

/-- What `makeRequestWithRetry` hands back to `processProxyRequest`. -/
inductive RetryResult where
  | response (status : Nat)
  | transportFailure (msg : String)
  | ctxCancelled
  deriving DecidableEq, Repr

/-- The result of the loop, together with how many `httpClient.Do` calls
were issued and the completed backoff waits (seconds). -/
structure RetryTrace where
  result : RetryResult
  attemptsMade : Nat
  waits : List Nat
  deriving DecidableEq, Repr

/-- The body of the `for attempt := 1; attempt <= maxChatRetries` loop.
`remaining` is `maxChatRetries - attempt + 1`; the zero-fuel branch mirrors
the `return lastResp, lastErr` line after the loop, which is unreachable
because every iteration with `attempt == maxChatRetries` returns. -/
def makeRequestWithRetryAux (doReq : Nat → AttemptResult) (cancelled : Nat → Bool) :
    Nat → Nat → List Nat → RetryTrace
  | _, 0, waits => { result := .transportFailure (""), attemptsMade := 0, waits := waits }
  | attempt, r + 1, waits =>
    match doReq attempt with
    | .transportError e =>
        if r = 0 then
          { result := .transportFailure e, attemptsMade := attempt, waits := waits }
        else if cancelled attempt then
          { result := .ctxCancelled, attemptsMade := attempt, waits := waits }
        else
          makeRequestWithRetryAux doReq cancelled (attempt + 1) r
            (waits ++ [baseChatRetryDelay * attempt * attempt])
    | .response st =>
        if !isRetriableError st false then
          { result := .response st, attemptsMade := attempt, waits := waits }
        else if r = 0 then
          { result := .response st, attemptsMade := attempt, waits := waits }
        else if cancelled attempt then
          { result := .ctxCancelled, attemptsMade := attempt, waits := waits }
        else
          makeRequestWithRetryAux doReq cancelled (attempt + 1) r
            (waits ++ [baseChatRetryDelay * attempt * attempt])

/-- `(s *ProxyService) makeRequestWithRetry(req, body)`. -/
def makeRequestWithRetry (doReq : Nat → AttemptResult) (cancelled : Nat → Bool) :
    RetryTrace :=
  makeRequestWithRetryAux doReq cancelled 1 maxChatRetries []

/-! ## Token lifecycle (internal/config.go)

The `Config` fields that token handling reads and writes. Timestamps are
Unix seconds (Int, as in Go int64). -/

/-- The token-bearing part of `Config`. -/
structure TokenConfig where
  githubToken : String
  copilotToken : String
  expiresAt : Int
  refreshIn : Int
  deriving DecidableEq, Repr

/-- `EnsureValidTokenWithConfig` (config.go, lines 806-821): fail when no
API token is present; refresh when `cfg.ExpiresAt <= now+300`; otherwise
return the record unchanged. `refreshToken` is the outcome of
`s.RefreshToken(email, cfg)` (on success, the refreshed record). -/
def ensureValidTokenWithConfig (cfg : TokenConfig) (now : Int)
    (refreshToken : TokenConfig → Except String TokenConfig) :
    Except String TokenConfig :=
  if cfg.copilotToken = "" then
    .error ("no token available - authentication required")
  else if cfg.expiresAt ≤ now + 300 then
    refreshToken cfg
  else
    .ok cfg

/-- How `RefreshTokenWithContext` (config.go, lines 721-782) terminates. -/
inductive RefreshResult where
  | ok (cfg : TokenConfig)
  | noGithubToken
  | tokenError (msg : String)
  | ctxCancelled
  | dbError (msg : String)
  deriving DecidableEq, Repr

/-- Result of the refresh routine plus the number of upstream
`getCopilotToken` requests issued and the completed backoff waits. -/
structure RefreshTrace where
  result : RefreshResult
  upstreamRequests : Nat
  waits : List Nat
  deriving DecidableEq, Repr

/-- The retry loop of `RefreshTokenWithContext`. `getTok n` is the outcome
of the n-th `getCopilotToken` call (token, expiresAt, refreshIn);
`updateDb` the outcome of `updateTokenInDatabase`; `cancelled n` tells
whether the outer context fires during the backoff wait after attempt n.
`remaining = maxRefreshRetries - attempt + 1`; the zero-fuel branch mirrors
the unreachable `NewAuthError("maximum retry attempts exceeded")` line
after the loop. -/
def refreshTokenAux (cfg : TokenConfig)
    (getTok : Nat → Except String (String × Int × Int))
    (updateDb : TokenConfig → Except String Unit)
    (cancelled : Nat → Bool) :
    Nat → Nat → List Nat → RefreshTrace
  | _, 0, waits =>
      { result := .tokenError ("maximum retry attempts exceeded"),
        upstreamRequests := 0, waits := waits }
  | attempt, r + 1, waits =>
    match getTok attempt with
    | .error e =>
        if r = 0 then
          { result := .tokenError e, upstreamRequests := attempt, waits := waits }
        else if cancelled attempt then
          { result := .ctxCancelled, upstreamRequests := attempt, waits := waits }
        else
          refreshTokenAux cfg getTok updateDb cancelled (attempt + 1) r
            (waits ++ [baseRetryDelay * attempt * attempt])
    | .ok (tok, exp, ri) =>
        let cfg2 := { cfg with copilotToken := tok, expiresAt := exp, refreshIn := ri }
        match updateDb cfg2 with
        | .error e =>
            { result := .dbError e, upstreamRequests := attempt, waits := waits }
        | .ok _ =>
            { result := .ok cfg2, upstreamRequests := attempt, waits := waits }

/-- `RefreshTokenWithContext` on the main (non-test-injected) path: fail
fast without a GitHub token, otherwise run the retry loop. -/
def refreshTokenWithContext (cfg : TokenConfig)
    (getTok : Nat → Except String (String × Int × Int))
    (updateDb : TokenConfig → Except String Unit)
    (cancelled : Nat → Bool) : RefreshTrace :=
  if cfg.githubToken = "" then
    { result := .noGithubToken, upstreamRequests := 0, waits := [] }
  else
    refreshTokenAux cfg getTok updateDb cancelled 1 maxRefreshRetries []

/-! ## Device-flow polling (internal/config.go, lines 994-1047) -/

/-- What one iteration of the poll loop observes: the context firing
during the leading `interval`-second sleep, a transport error from
`httpClient.Do` (the code continues), a JSON decode error (the code
continues), or a decoded token response with its `error`,
`error_description` and `access_token` fields. -/
inductive PollStep where
  | ctxDone
  | transportError
  | decodeError
  | tokenResp (e desc tok : String)
  deriving DecidableEq, Repr

/-- How `pollForGitHubTokenWithContext` terminates. -/
inductive PollResult where
  | token (tok : String)
  | ctxCancelled
  | authFailed (msg : String)
  | timedOut
  deriving DecidableEq, Repr

/-- Poll outcome plus the number of loop iterations entered (each
iteration begins with the sleep, then one POST to the token endpoint). -/
structure PollTrace where
  result : PollResult
  iterations : Nat
  deriving DecidableEq, Repr

/-- The `for range maxIterations` loop body. `steps i` is what iteration i
(0-based) observes. -/
def pollAux (steps : Nat → PollStep) : Nat → Nat → PollTrace
  | 0, i => { result := .timedOut, iterations := i }
  | n + 1, i =>
    match steps i with
    | .ctxDone => { result := .ctxCancelled, iterations := i + 1 }
    | .transportError => pollAux steps n (i + 1)
    | .decodeError => pollAux steps n (i + 1)
    | .tokenResp e desc tok =>
        if e ≠ "" then
          if e = "authorization_pending" then pollAux steps n (i + 1)
          else
            { result := .authFailed ("authorization failed: " ++ e ++ " - " ++ desc),
              iterations := i + 1 }
        else if tok ≠ "" then
          { result := .token tok, iterations := i + 1 }
        else
          pollAux steps n (i + 1)

/-- `maxIterations := (expiresIn / interval) + 1`; Go integer division on
non-negative operands truncates, i.e. Nat floor division. -/
def pollMaxIterations (expiresIn interval : Nat) : Nat :=
  expiresIn / interval + 1

/-- `pollForGitHubTokenWithContext` (the Stage2 HTTP handler guarantees
`interval ≥ 1`). -/
def pollForGitHubToken (expiresIn interval : Nat) (steps : Nat → PollStep) :
    PollTrace :=
  pollAux steps (pollMaxIterations expiresIn interval) 0

/-! ## Single-check mode and the stage-2 handler
(internal/config.go lines 1051-1089; auth API handler) -/

/-- What the single `httpClient.Do` of `checkGitHubTokenOnce` observes. -/
inductive OnceStep where
  | transportError (msg : String)
  | decodeError (msg : String)
  | tokenResp (e desc tok : String)
  deriving DecidableEq, Repr

/-- `checkGitHubTokenOnce`: one POST to the token endpoint; a non-empty
`error` field is returned as-is (`NewAuthError(tr.Error, nil)`, whose
message is the error field — the error-type file is not under src/; per
the spec the AuthError message contains exactly that literal). -/
def checkGitHubTokenOnce (o : OnceStep) : Except String String :=
  match o with
  | .transportError m => .error m
  | .decodeError m => .error m
  | .tokenResp e _ tok =>
      if e ≠ "" then .error e
      else if tok ≠ "" then .ok tok
      else .error ("no access token in response")

/-- `AuthenticateStage2` with `pollMode = false`: the single check, then
the Copilot-token exchange and the database save, each failure wrapped
with the `fmt.Errorf` text of config.go. Returns the error message the
HTTP handler sees, or none on success. -/
def authenticateStage2Single (o : OnceStep)
    (getCopilot : String → Except String (String × Int × Int))
    (updateDb : Except String Unit) : Option String :=
  match checkGitHubTokenOnce o with
  | .error e => some ("failed to check GitHub token: " ++ e)
  | .ok ghTok =>
    match getCopilot ghTok with
    | .error e => some ("failed to get Copilot token: " ++ e)
    | .ok _ =>
      match updateDb with
      | .error e => some ("failed to save token to database: " ++ e)
      | .ok _ => none

/-- Status line and `success` field of the stage-2 JSON response. -/
structure Stage2HTTPResponse where
  status : Nat
  success : Bool
  deriving DecidableEq, Repr

/-- The error/success dispatch of `Stage2Handler` after
`AuthenticateStage2` returns: pending (non-poll mode, message containing
`authorization_pending`) is 202 with success=false
(`sendStage2PendingResponse`); any other error is 500; on success the
handler re-fetches the record from the database (500 when that fails,
otherwise 200 with success=true). -/
def stage2Dispatch (pollMode : Bool) (stage2Err : Option String)
    (fetchAfter : Except String TokenConfig) : Stage2HTTPResponse :=
  match stage2Err with
  | some e =>
      if !pollMode && strContains e ("authorization_pending") then
        { status := 202, success := false }
      else
        { status := 500, success := false }
  | none =>
      match fetchAfter with
      | .error _ => { status := 500, success := false }
      | .ok _ => { status := 200, success := true }

/-! ## Proxy request pipeline (internal/proxy.go, lines 171-427)

`processProxyRequest` is modelled stage by stage; JSON decoding, token
validation and the upstream exchange are oracles. The trace records the
error message (if any) and whether an upstream request was issued. -/

/-- Outcome of `io.ReadAll` on a body wrapped by
`http.MaxBytesReader(w, r.Body, cap)`: reading fails with the Go error
text `http: request body too large` exactly when the body exceeds the
cap. -/
inductive BodyReadOutcome where
  | ok (body : List Nat)
  | readError (msg : String)
  deriving DecidableEq, Repr

/-- `io.ReadAll` over the capped body. -/
def readAllCapped (cap : Nat) (body : List Nat) : BodyReadOutcome :=
  if cap < body.length then .readError ("http: request body too large")
  else .ok body

/-- Result of `processProxyRequest`: the error message returned to the
dispatcher (or the relayed upstream status), plus whether any upstream
request was issued. -/
structure ProcTrace where
  outcome : Except String Nat
  upstreamIssued : Bool
  deriving Repr

/-- `processProxyRequest`: method check, capped body read (413-intended
branch on the `http: request body too large` message), empty-body check,
`{model}` JSON sniff, allow-list check, `EnsureValidToken`, path routing,
then the upstream exchange. Error strings follow the `fmt.Errorf` texts of
proxy.go; the message of `NewAuthError("token validation failed", err)`
contains its first argument (the error-type file is not under src/; the
spec fixes the substrings the dispatcher matches on). -/
def processProxyRequest
    (method path : String) (body : List Nat)
    (parseModel : List Nat → Except String String)
    (allowedModels : List String)
    (ensureTok : Except String Unit)
    (upstream : Except String Nat) : ProcTrace :=
  if method ≠ "POST" then
    { outcome := .error ("method not allowed: " ++ method), upstreamIssued := false }
  else
    match readAllCapped maxRequestBodySize body with
    | .readError e =>
        if strContains e ("http: request body too large") then
          { outcome := .error ("payload too large: " ++ e), upstreamIssued := false }
        else
          { outcome := .error ("bad request: failed to read request body: " ++ e),
            upstreamIssued := false }
    | .ok bs =>
        if bs.length = 0 then
          { outcome := .error ("bad request: empty request body"), upstreamIssued := false }
        else
          match parseModel bs with
          | .error e =>
              { outcome := .error ("bad request: invalid JSON: " ++ e),
                upstreamIssued := false }
          | .ok model =>
              if allowedModels ≠ [] ∧ ¬ allowedModels.contains model then
                { outcome := .error ("bad request: model " ++ model ++
                    " is not allowed by allowed_models in config"),
                  upstreamIssued := false }
              else
                match ensureTok with
                | .error e =>
                    { outcome := .error ("token validation failed: " ++ e),
                      upstreamIssued := false }
                | .ok _ =>
                    if path ≠ "/v1/completions" ∧ path ≠ "/v1/chat/completions" then
                      { outcome := .error ("unsupported proxy path: " ++ path),
                        upstreamIssued := false }
                    else
                      match upstream with
                      | .error e =>
                          { outcome := .error ("proxy_request: failed to complete request after retries: " ++ e),
                            upstreamIssued := true }
                      | .ok st =>
                          { outcome := .ok st, upstreamIssued := true }

/-- The error-to-status switch of `Handler` (proxy.go, lines 213-224):
substring dispatch on the worker error message, default 500. There is no
case producing 413. -/
def handlerStatusForError (msg : String) : Nat :=
  if strContains msg ("authentication error") then 401
  else if strContains msg ("token validation failed") then 401
  else if strContains msg ("bad request") then 400
  else if strContains msg ("method not allowed") then 405
  else 500

/-! ## Request coalescing (internal/proxy.go, lines 104-145)

`CoalesceRequest` publishes the produced value with `ch <- result` followed
by `close(ch)` on a channel of capacity one. Go channel semantics for this
pair of operations, with `w` receivers blocked on `<-ch` at that moment:
the send hands the value to the longest-waiting blocked receiver (or, with
no blocked receiver, places it in the buffer); the close then releases
every still-blocked receiver with the zero value of the element type
(`none` here). A receiver arriving after the close drains the buffer
first, then also gets the zero value. -/

/-- A Go channel of capacity one after the goroutine has finished
`ch <- v; close(ch)`. -/
structure GoChan (α : Type) where
  buf : List α
  closed : Bool
  deriving Repr

/-- `ch <- v; close(ch)` with `blocked` receivers waiting on `<-ch`:
returns the value each blocked receiver observes (in queue order) and the
channel state afterwards. -/
def sendThenClose {α : Type} (v : α) (blocked : Nat) :
    List (Option α) × GoChan α :=
  match blocked with
  | 0 => ([], { buf := [v], closed := true })
  | k + 1 => (some v :: List.replicate k none, { buf := [], closed := true })

/-- One receive on the channel after the close. -/
def recvClosed {α : Type} (ch : GoChan α) : Option α × GoChan α :=
  match ch.buf with
  | [] => (none, ch)
  | x :: rest => (some x, { ch with buf := rest })

/-- One full `CoalesceRequest` round for a key, with the executor (first
arrival, which invokes `fn` once) plus `waiters` callers blocked on the
channel when the broadcast happens: the value returned to the executor,
the values the blocked waiters observe, and whether the key was deleted
afterwards. -/
structure CoalesceRound (α : Type) where
  executorValue : α
  waiterValues : List (Option α)
  keyRemoved : Bool
  deriving Repr

/-- The broadcast/cleanup phase of `CoalesceRequest` once `fn` has
produced `v`. -/
def coalesceRound {α : Type} (v : α) (waiters : Nat) : CoalesceRound α :=
  { executorValue := v
    waiterValues := (sendThenClose v waiters).1
    keyRemoved := true }

/-! ## Worker pool (server file, WorkerPool.start) and the proxy job
closure (internal/proxy.go, lines 194-204) -/

/-- Behaviour of a submitted job as the worker goroutine observes it. -/
inductive JobBehavior where
  | completes
  | panics (msg : String)
  deriving DecidableEq, Repr

/-- What happens to the worker goroutine that picked the job. -/
inductive WorkerOutcome where
  | jobCompleted
  | panicEscaped (msg : String)
  deriving DecidableEq, Repr

/-- The worker loop body of `WorkerPool.start`: `job()` is called with no
deferred recover, so a panicking job panics the worker goroutine. -/
def workerRunJob : JobBehavior → WorkerOutcome
  | .completes => .jobCompleted
  | .panics m => .panicEscaped m

/-- Behaviour of `s.processProxyRequest` inside the proxy job closure. -/
inductive ProcessBehavior where
  | returns (err : Option String)
  | panics (msg : String)
  deriving DecidableEq, Repr

/-- The value the closure sends on the `done` channel. A recovered panic
becomes `NewProxyError("request_processing", "worker panic during request
processing", fmt.Errorf("panic: %v", recovery))`, carried here by its
constructor arguments. -/
inductive DoneValue where
  | noError
  | procError (msg : String)
  | panicRecovered (op what panicMsg : String)
  deriving DecidableEq, Repr

/-- The job closure `Handler` submits to the pool: a deferred recover
turns a panic of `processProxyRequest` into a `ProxyError` sent on
`done`, so the closure itself always completes. Returns the behaviour the
worker sees and the value sent on `done`. -/
def proxyJobRun (b : ProcessBehavior) : JobBehavior × DoneValue :=
  match b with
  | .returns none => (.completes, .noError)
  | .returns (some e) => (.completes, .procError e)
  | .panics m =>
      (.completes, .panicRecovered ("request_processing")
        ("worker panic during request processing") m)

/-! ## GetRequestKey (internal/proxy.go, lines 104-114)

`GetRequestKey` writes `[]byte(method)`, then `[]byte(url)`, then — only
when the `body interface{}` is a non-nil `[]byte` — the body bytes into a
fresh SHA-256 state, and returns the hex-encoded digest. Bytes are
modelled as Nat below 256; 32-bit words as Nat reduced mod 2^32. -/

/-- 32-bit truncating addition. -/
def add32 (a b : Nat) : Nat := (a + b) % 2 ^ 32

/-- Rotate a 32-bit word right by `n` positions. -/
def rotr32 (n x : Nat) : Nat := ((x >>> n) ||| (x <<< (32 - n))) % 2 ^ 32

/-- Bitwise complement of a 32-bit word. -/
def not32 (x : Nat) : Nat := x ^^^ 0xffffffff

/-- SHA-256 `Ch(x,y,z)`. -/
def sha256Ch (x y z : Nat) : Nat := (x &&& y) ^^^ (not32 x &&& z)

/-- SHA-256 `Maj(x,y,z)`. -/
def sha256Maj (x y z : Nat) : Nat := (x &&& y) ^^^ (x &&& z) ^^^ (y &&& z)

/-- SHA-256 `Σ0`. -/
def bigSigma0 (x : Nat) : Nat := rotr32 2 x ^^^ rotr32 13 x ^^^ rotr32 22 x

/-- SHA-256 `Σ1`. -/
def bigSigma1 (x : Nat) : Nat := rotr32 6 x ^^^ rotr32 11 x ^^^ rotr32 25 x

/-- SHA-256 `σ0`. -/
def smallSigma0 (x : Nat) : Nat := rotr32 7 x ^^^ rotr32 18 x ^^^ (x >>> 3)

/-- SHA-256 `σ1`. -/
def smallSigma1 (x : Nat) : Nat := rotr32 17 x ^^^ rotr32 19 x ^^^ (x >>> 10)

/-- The 64 round constants of FIPS 180-4 (in decimal). -/
def sha256K : List Nat :=
  [1116352408, 1899447441, 3049323471, 3921009573, 961987163,
   1508970993, 2453635748, 2870763221, 3624381080, 310598401,
   607225278, 1426881987, 1925078388, 2162078206, 2614888103,
   3248222580, 3835390401, 4022224774, 264347078, 604807628,
   770255983, 1249150122, 1555081692, 1996064986, 2554220882,
   2821834349, 2952996808, 3210313671, 3336571891, 3584528711,
   113926993, 338241895, 666307205, 773529912, 1294757372,
   1396182291, 1695183700, 1986661051, 2177026350, 2456956037,
   2730485921, 2820302411, 3259730800, 3345764771, 3516065817,
   3600352804, 4094571909, 275423344, 430227734, 506948616,
   659060556, 883997877, 958139571, 1322822218, 1537002063,
   1747873779, 1955562222, 2024104815, 2227730452, 2361852424,
   2428436474, 2756734187, 3204031479, 3329325298]

/-- Big-endian byte expansion of a number into `k` bytes. -/
def beBytes : Nat → Nat → List Nat
  | 0, _ => []
  | k + 1, n => beBytes k (n / 256) ++ [n % 256]

/-- Merkle-Damgård padding: append 0x80, zero bytes up to 56 mod 64, then
the bit length as 8 big-endian bytes. -/
def sha256Pad (msg : List Nat) : List Nat :=
  let len := msg.length
  let padZeros := (120 - (len + 1) % 64) % 64
  msg ++ [0x80] ++ List.replicate padZeros 0 ++ beBytes 8 (8 * len)

/-- Split the padded message into 64-byte blocks. -/
def chunksOf64 (l : List Nat) : List (List Nat) :=
  match l with
  | [] => []
  | x :: xs => List.take 64 (x :: xs) :: chunksOf64 (List.drop 64 (x :: xs))
termination_by l.length
decreasing_by simp [List.length_drop]; omega

/-- Group a 64-byte block into 16 big-endian 32-bit words. -/
def wordsOfBlock : List Nat → List Nat
  | b0 :: b1 :: b2 :: b3 :: rest =>
      (((b0 * 256 + b1) * 256 + b2) * 256 + b3) :: wordsOfBlock rest
  | _ => []

/-- Append the next word of the message schedule. -/
def scheduleStep (w : List Nat) : List Nat :=
  let n := w.length
  w ++ [(smallSigma1 (w.getD (n - 2) 0) + w.getD (n - 7) 0 +
         smallSigma0 (w.getD (n - 15) 0) + w.getD (n - 16) 0) % 2 ^ 32]

/-- Iterate `scheduleStep`. -/
def extendSchedule : Nat → List Nat → List Nat
  | 0, w => w
  | k + 1, w => extendSchedule k (scheduleStep w)

/-- The eight 32-bit words of a SHA-256 state. -/
structure Hash8 where
  a : Nat
  b : Nat
  c : Nat
  d : Nat
  e : Nat
  f : Nat
  g : Nat
  h : Nat
  deriving DecidableEq, Repr

/-- The initial hash state of FIPS 180-4 (in decimal). -/
def sha256InitH : Hash8 :=
  { a := 1779033703, b := 3144134277, c := 1013904242, d := 2773480762,
    e := 1359893119, f := 2600822924, g := 528734635, h := 1541459225 }

/-- One compression round. -/
def sha256Round (s : Hash8) (k w : Nat) : Hash8 :=
  let t1 := (s.h + bigSigma1 s.e + sha256Ch s.e s.f s.g + k + w) % 2 ^ 32
  let t2 := (bigSigma0 s.a + sha256Maj s.a s.b s.c) % 2 ^ 32
  { a := (t1 + t2) % 2 ^ 32, b := s.a, c := s.b, d := s.c,
    e := (s.d + t1) % 2 ^ 32, f := s.e, g := s.f, h := s.g }

/-- Compress one 64-byte block into the running state. -/
def compressBlock (hs : Hash8) (block : List Nat) : Hash8 :=
  let ws := extendSchedule 48 (wordsOfBlock block)
  let s := (List.zip sha256K ws).foldl (fun s kw => sha256Round s kw.1 kw.2) hs
  { a := add32 hs.a s.a, b := add32 hs.b s.b, c := add32 hs.c s.c,
    d := add32 hs.d s.d, e := add32 hs.e s.e, f := add32 hs.f s.f,
    g := add32 hs.g s.g, h := add32 hs.h s.h }

/-- SHA-256 of a byte sequence, as 32 digest bytes. -/
def sha256Bytes (msg : List Nat) : List Nat :=
  let hs := (chunksOf64 (sha256Pad msg)).foldl compressBlock sha256InitH
  (([hs.a, hs.b, hs.c, hs.d, hs.e, hs.f, hs.g, hs.h]).map (beBytes 4)).flatten

/-- Lower-case hex digit. -/
def hexDigit (n : Nat) : Char :=
  if n < 10 then Char.ofNat (48 + n) else Char.ofNat (87 + n)

/-- Hex encoding of a byte sequence (`hex.EncodeToString`). -/
def hexEncode (bs : List Nat) : String :=
  String.mk ((bs.map (fun b => [hexDigit (b / 16), hexDigit (b % 16)])).flatten)

/-- UTF-8 encoding of one code point (Go `[]byte(string)` is UTF-8). -/
def utf8EncodeCharNat (c : Nat) : List Nat :=
  if c < 0x80 then [c]
  else if c < 0x800 then [0xc0 + c / 0x40, 0x80 + c % 0x40]
  else if c < 0x10000 then
    [0xe0 + c / 0x1000, 0x80 + (c / 0x40) % 0x40, 0x80 + c % 0x40]
  else
    [0xf0 + c / 0x40000, 0x80 + (c / 0x1000) % 0x40,
     0x80 + (c / 0x40) % 0x40, 0x80 + c % 0x40]

/-- The byte sequence of a Go string. -/
def strUTF8 (s : String) : List Nat :=
  (s.data.map (fun ch => utf8EncodeCharNat ch.toNat)).flatten

/-- The `body interface{}` argument of `GetRequestKey`: nil, a byte
slice, or a value of any other dynamic type. -/
inductive GoBody where
  | nil
  | bytes (bs : List Nat)
  | nonBytes
  deriving DecidableEq, Repr

/-- The octets a body argument contributes to the hash: only a `[]byte`
passes the `if body != nil` / type-assertion guards. -/
def goBodyOctets : GoBody → List Nat
  | .bytes bs => bs
  | _ => []

/-- The bytes written into the SHA-256 state by `GetRequestKey`, in write
order: `h.Write([]byte(method))`, `h.Write([]byte(url))`, then the body
bytes when the guards pass. -/
def getRequestKeyInput (method url : String) (body : GoBody) : List Nat :=
  let afterMethod := strUTF8 method
  let afterURL := afterMethod ++ strUTF8 url
  match body with
  | .bytes bs => afterURL ++ bs
  | .nil => afterURL
  | .nonBytes => afterURL

/-- `GetRequestKey`: hex-encoded SHA-256 of the written bytes. -/
def getRequestKey (method url : String) (body : GoBody) : String :=
  hexEncode (sha256Bytes (getRequestKeyInput method url body))

/-! # Theorems -/

/-! ## C2: the circuit breaker as a three-state machine -/

/-- Single-step preservation: in states Open and HalfOpen the failure
counter is at least the trip threshold. (The counter is only reset by
`onSuccess`, which also closes the breaker; the Open→HalfOpen admission
transition keeps the counter.) -/
lemma cbStep_count_ge (cb : CircuitBreaker) (e : CBEvent)
    (h : cb.state = CBState.opened ∨ cb.state = CBState.halfOpen →
      circuitBreakerFailureThreshold ≤ cb.failureCount) :
    (cbStep cb e).state = CBState.opened ∨ (cbStep cb e).state = CBState.halfOpen →
      circuitBreakerFailureThreshold ≤ (cbStep cb e).failureCount := by
  cases e with
  | check now =>
      cases hs : cb.state with
      | closed => simp [cbStep, CircuitBreaker.canExecute, hs]
      | opened =>
          by_cases hc : cb.timeout < now - cb.lastFailureTime <;>
            simp [cbStep, CircuitBreaker.canExecute, hs, hc] <;>
            exact h (Or.inl hs)
      | halfOpen =>
          simp [cbStep, CircuitBreaker.canExecute, hs]
          exact h (Or.inr hs)
  | success => simp [cbStep, CircuitBreaker.onSuccess]
  | failure now =>
      by_cases hc : circuitBreakerFailureThreshold ≤ cb.failureCount + 1
      · simp [cbStep, CircuitBreaker.onFailure, hc]
      · intro habs
        simp [cbStep, CircuitBreaker.onFailure, hc] at habs
        exact (hc (Nat.le_succ_of_le (h habs))).elim

/-- Trace preservation of the counter invariant. -/
lemma cbRun_count_ge (es : List CBEvent) (cb : CircuitBreaker)
    (h : cb.state = CBState.opened ∨ cb.state = CBState.halfOpen →
      circuitBreakerFailureThreshold ≤ cb.failureCount) :
    (cbRun cb es).state = CBState.opened ∨ (cbRun cb es).state = CBState.halfOpen →
      circuitBreakerFailureThreshold ≤ (cbRun cb es).failureCount := by
  induction es generalizing cb with
  | nil => exact h
  | cons e es ih => exact ih (cbStep cb e) (cbStep_count_ge cb e h)

/-- Every breaker state reachable from the initial one keeps the counter
at or above the threshold while Open or HalfOpen. -/
lemma cbReach_count_ge (t : Nat) (tr : List CBEvent)
    (h : (cbReach t tr).state = CBState.opened ∨
      (cbReach t tr).state = CBState.halfOpen) :
    circuitBreakerFailureThreshold ≤ (cbReach t tr).failureCount :=
  cbRun_count_ge tr (cbInit t) (by simp [cbInit]) h

/-- C2 (confirmed). Over every trace of admission checks and recorded
outcomes from the initial breaker: Closed admits every request unchanged;
Open rejects an admission within `timeout` of the last failure and flips
to HalfOpen (admitting) strictly after `timeout`; HalfOpen admits; a
success recorded in Closed or HalfOpen resets the counter to 0 and closes
the breaker; a failure recorded in a reachable HalfOpen state returns to
Open with the failure time updated; and the 5th consecutive failure from
the start (after 4 that leave it Closed) trips the breaker to Open,
recording the time of that failure. -/
theorem circuit_breaker_three_state_machine (t : Nat) (tr : List CBEvent)
    (now n1 n2 n3 n4 n5 : Nat) :
    ((cbReach t tr).state = CBState.closed →
        (cbReach t tr).canExecute now = (true, cbReach t tr)) ∧
    ((cbReach t tr).state = CBState.opened →
        (now - (cbReach t tr).lastFailureTime ≤ (cbReach t tr).timeout →
          (cbReach t tr).canExecute now = (false, cbReach t tr)) ∧
        ((cbReach t tr).timeout < now - (cbReach t tr).lastFailureTime →
          (cbReach t tr).canExecute now =
            (true, { cbReach t tr with state := CBState.halfOpen }))) ∧
    ((cbReach t tr).state = CBState.halfOpen →
        (cbReach t tr).canExecute now = (true, cbReach t tr)) ∧
    (((cbReach t tr).state = CBState.closed ∨
        (cbReach t tr).state = CBState.halfOpen) →
        (cbReach t tr).onSuccess.failureCount = 0 ∧
        (cbReach t tr).onSuccess.state = CBState.closed) ∧
    ((cbReach t tr).state = CBState.halfOpen →
        ((cbReach t tr).onFailure now).state = CBState.opened ∧
        ((cbReach t tr).onFailure now).lastFailureTime = now) ∧
    ((cbReach t [CBEvent.failure n1, CBEvent.failure n2, CBEvent.failure n3,
        CBEvent.failure n4]).state = CBState.closed ∧
      (cbReach t [CBEvent.failure n1, CBEvent.failure n2, CBEvent.failure n3,
        CBEvent.failure n4]).failureCount = 4) ∧
    ((cbReach t [CBEvent.failure n1, CBEvent.failure n2, CBEvent.failure n3,
        CBEvent.failure n4, CBEvent.failure n5]).state = CBState.opened ∧
      (cbReach t [CBEvent.failure n1, CBEvent.failure n2, CBEvent.failure n3,
        CBEvent.failure n4, CBEvent.failure n5]).lastFailureTime = n5) := by
  refine ⟨?_, ?_, ?_, ?_, ?_, ?_, ?_⟩
  · intro h; simp [CircuitBreaker.canExecute, h]
  · intro h
    constructor
    · intro hle
      simp [CircuitBreaker.canExecute, h, Nat.not_lt.mpr hle]
    · intro hlt
      simp [CircuitBreaker.canExecute, h, hlt]
  · intro h; simp [CircuitBreaker.canExecute, h]
  · intro _; simp [CircuitBreaker.onSuccess]
  · intro h
    have hcount := cbReach_count_ge t tr (Or.inr h)
    have : circuitBreakerFailureThreshold ≤ (cbReach t tr).failureCount + 1 :=
      Nat.le_succ_of_le hcount
    simp [CircuitBreaker.onFailure, this]
  · simp [cbReach, cbRun, cbStep, cbInit, CircuitBreaker.onFailure,
      circuitBreakerFailureThreshold]
  · simp [cbReach, cbRun, cbStep, cbInit, CircuitBreaker.onFailure,
      circuitBreakerFailureThreshold]

/-- Witness for C2 at concrete inputs: five failures at times 1..5 trip
the breaker (time recorded as 5), and the admission check at time 100
(past the 10-second timeout) is admitted from the resulting reachable
HalfOpen state. -/
theorem circuit_breaker_three_state_machine_witness :
    ((cbReach 10 [CBEvent.failure 1, CBEvent.failure 2, CBEvent.failure 3,
        CBEvent.failure 4, CBEvent.failure 5]).state = CBState.opened ∧
      (cbReach 10 [CBEvent.failure 1, CBEvent.failure 2, CBEvent.failure 3,
        CBEvent.failure 4, CBEvent.failure 5]).lastFailureTime = 5) ∧
    (cbReach 10 [CBEvent.failure 1, CBEvent.failure 2, CBEvent.failure 3,
        CBEvent.failure 4, CBEvent.failure 5, CBEvent.check 100]).canExecute 100 =
      (true, cbReach 10 [CBEvent.failure 1, CBEvent.failure 2, CBEvent.failure 3,
        CBEvent.failure 4, CBEvent.failure 5, CBEvent.check 100]) := by
  constructor
  · exact (circuit_breaker_three_state_machine 10 [] 0 1 2 3 4 5).2.2.2.2.2.2
  · exact (circuit_breaker_three_state_machine 10
      [CBEvent.failure 1, CBEvent.failure 2, CBEvent.failure 3,
        CBEvent.failure 4, CBEvent.failure 5, CBEvent.check 100]
      100 1 2 3 4 5).2.2.1 (by decide)

/-! ## C3: the retry policy of the proxy upstream exchange -/

/-- `isRetriableError` on a completed response, as the status predicate of
the claim. -/
lemma isRetriable_iff (st : Nat) :
    isRetriableError st false = true ↔ (500 ≤ st ∨ st = 429 ∨ st = 408) := by
  simp [isRetriableError, or_assoc]

/-- The loop issues at most `attempt - 1 + remaining` requests. -/
lemma makeRequestWithRetryAux_attempts_le (doReq : Nat → AttemptResult)
    (cancelled : Nat → Bool) (f : Nat) :
    ∀ (a : Nat) (w : List Nat),
      (makeRequestWithRetryAux doReq cancelled a f w).attemptsMade ≤ a - 1 + f := by
  induction f with
  | zero => intro a w; simp [makeRequestWithRetryAux]
  | succ r ih =>
      intro a w
      simp only [makeRequestWithRetryAux]
      cases hd : doReq a with
      | transportError e =>
          simp only [hd]
          split_ifs with h1 h2
          · simp; omega
          · simp; omega
          · exact le_trans (ih (a + 1) _) (by omega)
      | response st =>
          simp only [hd]
          split_ifs with h1 h2 h3
          · simp; omega
          · simp; omega
          · simp; omega
          · exact le_trans (ih (a + 1) _) (by omega)

/-- C3 (confirmed). The retry loop makes at most 3 `httpClient.Do` calls;
a first-attempt response is returned without retry exactly when its
status is outside {408, 429, 500..}; a response with status ≥ 500, 429 or
408 is retried (a second attempt is issued), as is a transport error; and
when all three attempts yield retriable responses, the loop returns the
last response to the caller regardless of its status. -/
theorem retry_loop_policy (doReq : Nat → AttemptResult) (cancelled : Nat → Bool) :
    (makeRequestWithRetry doReq cancelled).attemptsMade ≤ 3 ∧
    (∀ st, doReq 1 = AttemptResult.response st →
      ¬(500 ≤ st ∨ st = 429 ∨ st = 408) →
      makeRequestWithRetry doReq cancelled =
        { result := RetryResult.response st, attemptsMade := 1, waits := [] }) ∧
    (∀ st, doReq 1 = AttemptResult.response st →
      (500 ≤ st ∨ st = 429 ∨ st = 408) → cancelled 1 = false →
      2 ≤ (makeRequestWithRetry doReq cancelled).attemptsMade) ∧
    (∀ e, doReq 1 = AttemptResult.transportError e → cancelled 1 = false →
      2 ≤ (makeRequestWithRetry doReq cancelled).attemptsMade) ∧
    (∀ s1 s2 s3,
      doReq 1 = AttemptResult.response s1 → (500 ≤ s1 ∨ s1 = 429 ∨ s1 = 408) →
      doReq 2 = AttemptResult.response s2 → (500 ≤ s2 ∨ s2 = 429 ∨ s2 = 408) →
      doReq 3 = AttemptResult.response s3 →
      cancelled 1 = false → cancelled 2 = false →
      (makeRequestWithRetry doReq cancelled).result = RetryResult.response s3 ∧
      (makeRequestWithRetry doReq cancelled).attemptsMade = 3) := by
  refine ⟨?_, ?_, ?_, ?_, ?_⟩
  · have h := makeRequestWithRetryAux_attempts_le doReq cancelled 3 1 []
    simpa [makeRequestWithRetry, maxChatRetries] using h
  · intro st h1 hnot
    have hb : isRetriableError st false = false := by
      rw [Bool.eq_false_iff, Ne, isRetriable_iff]; exact hnot
    simp [makeRequestWithRetry, maxChatRetries, makeRequestWithRetryAux, h1, hb]
  · intro st h1 hret hcan
    have hb : isRetriableError st false = true := (isRetriable_iff st).mpr hret
    cases hd2 : doReq 2 <;>
      simp [makeRequestWithRetry, maxChatRetries, makeRequestWithRetryAux,
        h1, hb, hcan, hd2] <;>
      split_ifs <;>
      first
        | simp
        | (cases hd3 : doReq 3 <;> simp [hd3])
  · intro e h1 hcan
    cases hd2 : doReq 2 <;>
      simp [makeRequestWithRetry, maxChatRetries, makeRequestWithRetryAux,
        h1, hcan, hd2] <;>
      split_ifs <;>
      first
        | simp
        | (cases hd3 : doReq 3 <;> simp [hd3])
  · intro s1 s2 s3 h1 hr1 h2 hr2 h3 hc1 hc2
    have hb1 : isRetriableError s1 false = true := (isRetriable_iff s1).mpr hr1
    have hb2 : isRetriableError s2 false = true := (isRetriable_iff s2).mpr hr2
    constructor <;>
      simp [makeRequestWithRetry, maxChatRetries, makeRequestWithRetryAux,
        h1, hb1, hc1, h2, hb2, hc2, h3]

/-- Witness for C3 at concrete oracles: every attempt answers 500 and the
context never fires, so the loop makes exactly 3 attempts and hands the
third 500 response back. -/
theorem retry_loop_policy_witness :
    (makeRequestWithRetry (fun _ => AttemptResult.response 500)
        (fun _ => false)).result = RetryResult.response 500 ∧
    (makeRequestWithRetry (fun _ => AttemptResult.response 500)
        (fun _ => false)).attemptsMade = 3 :=
  (retry_loop_policy (fun _ => AttemptResult.response 500) (fun _ => false)).2.2.2.2
    500 500 500 rfl (by decide) rfl (by decide) rfl rfl rfl

/-! ## C5: the proactive-refresh boundary of EnsureValidToken -/

/-- C5 (confirmed). For a record with a non-empty API token,
`EnsureValidTokenWithConfig` invokes the refresh routine exactly when
`expires_at - now ≤ 300` (the code tests `expiresAt ≤ now + 300`), and for
`expires_at - now > 300` returns the record unchanged without refreshing. -/
theorem ensure_valid_token_refresh_boundary (cfg : TokenConfig) (now : Int)
    (refreshToken : TokenConfig → Except String TokenConfig)
    (htok : cfg.copilotToken ≠ "") :
    (cfg.expiresAt - now ≤ 300 →
      ensureValidTokenWithConfig cfg now refreshToken = refreshToken cfg) ∧
    (300 < cfg.expiresAt - now →
      ensureValidTokenWithConfig cfg now refreshToken = Except.ok cfg) := by
  constructor
  · intro h
    have h2 : cfg.expiresAt ≤ now + 300 := by omega
    simp [ensureValidTokenWithConfig, htok, h2]
  · intro h
    have h2 : ¬cfg.expiresAt ≤ now + 300 := by omega
    simp [ensureValidTokenWithConfig, htok, h2]

/-- Witness for C5 at the three boundary margins of the claim, with a
refresh routine that marks the record: margin 299 refreshes, margin 300
refreshes, margin 301 returns the record unchanged. -/
theorem ensure_valid_token_refresh_boundary_witness :
    (ensureValidTokenWithConfig ⟨"gh", "tok", 299, 0⟩ 0
        (fun c => Except.ok { c with copilotToken := "refreshed" }) =
      Except.ok ⟨"gh", "refreshed", 299, 0⟩) ∧
    (ensureValidTokenWithConfig ⟨"gh", "tok", 300, 0⟩ 0
        (fun c => Except.ok { c with copilotToken := "refreshed" }) =
      Except.ok ⟨"gh", "refreshed", 300, 0⟩) ∧
    (ensureValidTokenWithConfig ⟨"gh", "tok", 301, 0⟩ 0
        (fun c => Except.ok { c with copilotToken := "refreshed" }) =
      Except.ok ⟨"gh", "tok", 301, 0⟩) := by
  refine ⟨?_, ?_, ?_⟩
  · exact (ensure_valid_token_refresh_boundary ⟨"gh", "tok", 299, 0⟩ 0
      (fun c => Except.ok { c with copilotToken := "refreshed" })
      (by decide)).1 (by decide)
  · exact (ensure_valid_token_refresh_boundary ⟨"gh", "tok", 300, 0⟩ 0
      (fun c => Except.ok { c with copilotToken := "refreshed" })
      (by decide)).1 (by decide)
  · exact (ensure_valid_token_refresh_boundary ⟨"gh", "tok", 301, 0⟩ 0
      (fun c => Except.ok { c with copilotToken := "refreshed" })
      (by decide)).2 (by decide)

/-! ## C6: refresh retry backoff and context cancellation -/

/-- The refresh loop issues at most `attempt - 1 + remaining` upstream
requests. -/
lemma refreshTokenAux_requests_le (cfg : TokenConfig)
    (getTok : Nat → Except String (String × Int × Int))
    (updateDb : TokenConfig → Except String Unit)
    (cancelled : Nat → Bool) (f : Nat) :
    ∀ (a : Nat) (w : List Nat),
      (refreshTokenAux cfg getTok updateDb cancelled a f w).upstreamRequests ≤
        a - 1 + f := by
  induction f with
  | zero => intro a w; simp [refreshTokenAux]
  | succ r ih =>
      intro a w
      simp only [refreshTokenAux]
      cases hg : getTok a with
      | error e =>
          simp only [hg]
          split_ifs with h1 h2
          · simp; omega
          · simp; omega
          · exact le_trans (ih (a + 1) _) (by omega)
      | ok v =>
          simp only [hg]
          cases hu : updateDb { cfg with copilotToken := v.1, expiresAt := v.2.1, refreshIn := v.2.2 } <;>
            simp [hu] <;> omega

/-- The completed backoff waits of the refresh loop applied to an empty
accumulator at attempt `a` are `baseRetryDelay * n * n` for the
consecutive attempts `n = a, a+1, ...` that failed and were not
cancelled — at most `remaining - 1` of them. -/
lemma refreshTokenAux_waits (cfg : TokenConfig)
    (getTok : Nat → Except String (String × Int × Int))
    (updateDb : TokenConfig → Except String Unit)
    (cancelled : Nat → Bool) (f : Nat) :
    ∀ (a : Nat) (w : List Nat),
      ∃ k, k ≤ f - 1 ∧
        (refreshTokenAux cfg getTok updateDb cancelled a f w).waits =
          w ++ (List.range' a k).map (fun n => baseRetryDelay * n * n) := by
  induction f with
  | zero =>
      intro a w
      exact ⟨0, by omega, by simp [refreshTokenAux]⟩
  | succ r ih =>
      intro a w
      simp only [refreshTokenAux]
      cases hg : getTok a with
      | error e =>
          simp only [hg]
          split_ifs with h1 h2
          · exact ⟨0, by omega, by simp⟩
          · exact ⟨0, by omega, by simp⟩
          · obtain ⟨k, hk, hw⟩ := ih (a + 1) (w ++ [baseRetryDelay * a * a])
            refine ⟨k + 1, by omega, ?_⟩
            rw [hw, List.range'_succ, List.map_cons, List.append_assoc]
            rfl
      | ok v =>
          simp only [hg]
          cases hu : updateDb { cfg with copilotToken := v.1, expiresAt := v.2.1, refreshIn := v.2.2 } <;>
            exact ⟨0, by omega, by simp [hu]⟩

/-- C6 (confirmed). The refresh routine issues at most 3 upstream
requests; the completed waits between attempts are exactly
`baseRetryDelay * n * n = 2·n²` seconds for the first consecutive failed
attempts n (at most two waits can complete); and when the outer context
fires during the backoff wait after a failed attempt the routine returns
the context error there, with no further upstream requests issued. -/
theorem refresh_backoff_and_cancellation (cfg : TokenConfig)
    (getTok : Nat → Except String (String × Int × Int))
    (updateDb : TokenConfig → Except String Unit)
    (cancelled : Nat → Bool) :
    (refreshTokenWithContext cfg getTok updateDb cancelled).upstreamRequests ≤ 3 ∧
    (∃ k, k ≤ 2 ∧
      (refreshTokenWithContext cfg getTok updateDb cancelled).waits =
        (List.range' 1 k).map (fun n => baseRetryDelay * n * n)) ∧
    (∀ e, cfg.githubToken ≠ "" →
      getTok 1 = Except.error e → cancelled 1 = true →
      refreshTokenWithContext cfg getTok updateDb cancelled =
        { result := RefreshResult.ctxCancelled, upstreamRequests := 1,
          waits := [] }) ∧
    (∀ e1 e2, cfg.githubToken ≠ "" →
      getTok 1 = Except.error e1 → cancelled 1 = false →
      getTok 2 = Except.error e2 → cancelled 2 = true →
      refreshTokenWithContext cfg getTok updateDb cancelled =
        { result := RefreshResult.ctxCancelled, upstreamRequests := 2,
          waits := [baseRetryDelay * 1 * 1] }) := by
  refine ⟨?_, ?_, ?_, ?_⟩
  · by_cases hgh : cfg.githubToken = ""
    · simp [refreshTokenWithContext, hgh]
    · have h := refreshTokenAux_requests_le cfg getTok updateDb cancelled 3 1 []
      simpa [refreshTokenWithContext, hgh, maxRefreshRetries] using h
  · by_cases hgh : cfg.githubToken = ""
    · exact ⟨0, by omega, by simp [refreshTokenWithContext, hgh]⟩
    · obtain ⟨k, hk, hw⟩ := refreshTokenAux_waits cfg getTok updateDb cancelled 3 1 []
      exact ⟨k, by omega, by simpa [refreshTokenWithContext, hgh, maxRefreshRetries]
        using hw⟩
  · intro e hgh h1 hc1
    simp [refreshTokenWithContext, hgh, maxRefreshRetries, refreshTokenAux, h1, hc1]
  · intro e1 e2 hgh h1 hc1 h2 hc2
    simp [refreshTokenWithContext, hgh, maxRefreshRetries, refreshTokenAux,
      h1, hc1, h2, hc2]

/-- Witness for C6 at concrete oracles: every upstream attempt fails and
the context fires during the first backoff wait, so the routine stops
after exactly one upstream request with the context error and no
completed waits. -/
theorem refresh_backoff_and_cancellation_witness :
    refreshTokenWithContext ⟨"gh", "tok", 0, 0⟩ (fun _ => Except.error "net")
        (fun _ => Except.ok ()) (fun n => decide (n = 1)) =
      { result := RefreshResult.ctxCancelled, upstreamRequests := 1,
        waits := [] } :=
  (refresh_backoff_and_cancellation ⟨"gh", "tok", 0, 0⟩
      (fun _ => Except.error "net") (fun _ => Except.ok ())
      (fun n => decide (n = 1))).2.2.1 "net" (by decide) rfl (by decide)

/-! ## C7: stage-2 poll mode -/

/-- The poll loop enters at most `fuel` further iterations. -/
lemma pollAux_iterations_le (steps : Nat → PollStep) (n : Nat) :
    ∀ i, (pollAux steps n i).iterations ≤ i + n := by
  induction n with
  | zero => intro i; simp [pollAux]
  | succ m ih =>
      intro i
      simp only [pollAux]
      cases hs : steps i with
      | ctxDone => dsimp only; omega
      | transportError => exact le_trans (ih (i + 1)) (by omega)
      | decodeError => exact le_trans (ih (i + 1)) (by omega)
      | tokenResp e d tok =>
          dsimp only
          split_ifs with h1 h2 h3
          · exact le_trans (ih (i + 1)) (by omega)
          · dsimp only; omega
          · dsimp only; omega
          · exact le_trans (ih (i + 1)) (by omega)

/-- When the upstream keeps answering `authorization_pending` the loop
uses its entire iteration budget and times out. -/
lemma pollAux_all_pending (steps : Nat → PollStep)
    (h : ∀ j, steps j = PollStep.tokenResp ("authorization_pending") ("") ("")) (n : Nat) :
    ∀ i, pollAux steps n i = { result := PollResult.timedOut, iterations := i + n } := by
  induction n with
  | zero => intro i; simp [pollAux]
  | succ m ih =>
      intro i
      have hstep : i + 1 + m = i + (m + 1) := by omega
      simp only [pollAux, h i]
      rw [if_pos trivial, ih (i + 1), hstep]
      simp

/-- C7 (theorem for the amended claim). In poll mode the loop runs at
most `⌊expires_in/interval⌋ + 1` iterations (Go integer division
truncates) and exactly that many when every response is
`authorization_pending` (terminating with the timed-out AuthError); per
response, `authorization_pending` continues, any other non-empty `error`
terminates with the `authorization failed` AuthError, a non-empty
`access_token` is returned, and the context firing during the
inter-iteration sleep terminates with the context error. -/
theorem poll_mode_behavior (expiresIn interval : Nat) (steps : Nat → PollStep)
    (hok : 1 ≤ interval) :
    ((pollForGitHubToken expiresIn interval steps).iterations ≤
      expiresIn / interval + 1) ∧
    ((∀ j, steps j = PollStep.tokenResp ("authorization_pending") ("") ("")) →
      pollForGitHubToken expiresIn interval steps =
        { result := PollResult.timedOut, iterations := expiresIn / interval + 1 }) ∧
    (steps 0 = PollStep.ctxDone →
      pollForGitHubToken expiresIn interval steps =
        { result := PollResult.ctxCancelled, iterations := 1 }) ∧
    (∀ e d tok, steps 0 = PollStep.tokenResp e d tok → e ≠ "" →
      e ≠ "authorization_pending" →
      pollForGitHubToken expiresIn interval steps =
        { result := PollResult.authFailed ("authorization failed: " ++ e ++ " - " ++ d),
          iterations := 1 }) ∧
    (∀ d tok, steps 0 = PollStep.tokenResp ("") d tok → tok ≠ "" →
      pollForGitHubToken expiresIn interval steps =
        { result := PollResult.token tok, iterations := 1 }) := by
  refine ⟨?_, ?_, ?_, ?_, ?_⟩
  · have h := pollAux_iterations_le steps (pollMaxIterations expiresIn interval) 0
    simpa [pollForGitHubToken, pollMaxIterations] using h
  · intro hp
    have h := pollAux_all_pending steps hp (pollMaxIterations expiresIn interval) 0
    simpa [pollForGitHubToken, pollMaxIterations] using h
  · intro h0
    simp [pollForGitHubToken, pollMaxIterations, pollAux, h0]
  · intro e d tok h0 he hpend
    simp [pollForGitHubToken, pollMaxIterations, pollAux, h0, he, hpend]
  · intro d tok h0 htok
    simp [pollForGitHubToken, pollMaxIterations, pollAux, h0, htok]

/-- Witness for C7 at concrete inputs: `expires_in = 10`, `interval = 3`,
upstream always pending — the loop runs its full budget of
`10/3 + 1 = 4` iterations and times out. -/
theorem poll_mode_behavior_witness :
    pollForGitHubToken 10 3
        (fun _ => PollStep.tokenResp ("authorization_pending") ("") ("")) =
      { result := PollResult.timedOut, iterations := 4 } :=
  (poll_mode_behavior 10 3
      (fun _ => PollStep.tokenResp ("authorization_pending") ("") (""))
      (by decide)).2.1 (fun _ => rfl)

/-- C7 counterexample: with `expires_in = 10` and `interval = 3` the code
polls at most `10/3 + 1 = 4` times (Go division truncates) and gives up
after 4 pending responses, whereas the claim announces an iteration cap
of `⌈10/3⌉ + 1 = (10+3-1)/3 + 1 = 5`. -/
theorem poll_iterations_counterexample :
    pollForGitHubToken 10 3
        (fun _ => PollStep.tokenResp ("authorization_pending") ("") ("")) =
      { result := PollResult.timedOut, iterations := 4 } ∧
    (10 + 3 - 1) / 3 + 1 = 5 ∧ (4 : Nat) ≠ 5 := by
  exact ⟨by decide, by decide, by decide⟩

/-! ## C8: stage-2 single-check mode and the 202/500 dispatch -/

/-- C8 (theorem for the amended claim). In single-check mode an upstream
`authorization_pending` response surfaces as the stage-2 error message
`failed to check GitHub token: authorization_pending`, which contains the
literal and which the handler answers with 202 Accepted and
`success=false`; any stage-2 failure whose message does not contain the
substring `authorization_pending` is answered with 500; and a non-empty
upstream error field `e` surfaces as the message
`failed to check GitHub token: e`. -/
theorem stage2_single_check_mode (d tok : String)
    (getCopilot : String → Except String (String × Int × Int))
    (updateDb : Except String Unit) (fetchAfter : Except String TokenConfig) :
    (authenticateStage2Single (OnceStep.tokenResp ("authorization_pending") d tok)
        getCopilot updateDb =
      some ("failed to check GitHub token: authorization_pending")) ∧
    (strContains ("failed to check GitHub token: authorization_pending")
        ("authorization_pending") = true) ∧
    (stage2Dispatch false
        (some ("failed to check GitHub token: authorization_pending")) fetchAfter =
      { status := 202, success := false }) ∧
    (∀ m, strContains m ("authorization_pending") = false →
      stage2Dispatch false (some m) fetchAfter =
        { status := 500, success := false }) ∧
    (∀ e, e ≠ "" →
      authenticateStage2Single (OnceStep.tokenResp e d tok) getCopilot updateDb =
        some ("failed to check GitHub token: " ++ e)) := by
  refine ⟨?_, by decide, ?_, ?_, ?_⟩
  · simp [authenticateStage2Single, checkGitHubTokenOnce]
  · have hc : strContains ("failed to check GitHub token: authorization_pending")
        ("authorization_pending") = true := by decide
    simp [stage2Dispatch, hc]
  · intro m hm
    simp [stage2Dispatch, hm]
  · intro e he
    simp [authenticateStage2Single, checkGitHubTokenOnce, he]

/-- Witness for C8 at concrete inputs: the upstream error `slow_down`
surfaces as `failed to check GitHub token: slow_down`, whose message does
not contain the pending literal, and the handler answers 500. -/
theorem stage2_single_check_mode_witness :
    authenticateStage2Single (OnceStep.tokenResp ("slow_down") ("") (""))
        (fun _ => Except.error "x") (Except.ok ()) =
      some ("failed to check GitHub token: slow_down") ∧
    stage2Dispatch false (some ("failed to check GitHub token: slow_down"))
        (Except.ok ⟨"", "", 0, 0⟩) =
      { status := 500, success := false } := by
  constructor
  · exact (stage2_single_check_mode "" "" (fun _ => Except.error "x")
      (Except.ok ()) (Except.ok ⟨"", "", 0, 0⟩)).2.2.2.2 "slow_down" (by decide)
  · exact (stage2_single_check_mode "" "" (fun _ => Except.error "x")
      (Except.ok ()) (Except.ok ⟨"", "", 0, 0⟩)).2.2.2.1
      ("failed to check GitHub token: slow_down") (by decide)

/-- C8 counterexample: the handler decides pending-vs-other by substring
containment, so the distinct upstream error
`slow_down_authorization_pending` — a stage-2 failure other than
`authorization_pending` — is also answered with 202, not 500 as the
claim states. -/
theorem stage2_pending_substring_counterexample :
    authenticateStage2Single
        (OnceStep.tokenResp ("slow_down_authorization_pending") ("") (""))
        (fun _ => Except.error "x") (Except.ok ()) =
      some ("failed to check GitHub token: slow_down_authorization_pending") ∧
    ("slow_down_authorization_pending" : String) ≠ "authorization_pending" ∧
    stage2Dispatch false
        (some ("failed to check GitHub token: slow_down_authorization_pending"))
        (Except.ok ⟨"", "", 0, 0⟩) =
      { status := 202, success := false } ∧
    (202 : Nat) ≠ 500 := by
  exact ⟨by decide, by decide, by decide, by decide⟩

/-! ## C1: the 5 MiB body cap and the status the handler actually sends -/

/-- C1 (code evaluated at the failing input). A POST body of
`maxRequestBodySize + 1` bytes makes the capped read fail with
`http: request body too large`; `processProxyRequest` returns the
`payload too large` error with no upstream request issued — but the error
switch of `Handler` has no case for that message, so the response status
is the default 500, not the 413 announced by the claim, the spec and the
code comment above the branch. -/
theorem body_limit_yields_500_not_413 :
    processProxyRequest ("POST") ("/v1/chat/completions")
        (List.replicate (maxRequestBodySize + 1) 0)
        (fun _ => Except.ok "gpt-4o") [] (Except.ok ()) (Except.ok 200) =
      { outcome := Except.error ("payload too large: http: request body too large"),
        upstreamIssued := false } ∧
    handlerStatusForError ("payload too large: http: request body too large") = 500 ∧
    (500 : Nat) ≠ 413 := by
  have hlt : maxRequestBodySize <
      (List.replicate (maxRequestBodySize + 1) (0 : Nat)).length := by
    simp
  have hread : readAllCapped maxRequestBodySize
      (List.replicate (maxRequestBodySize + 1) 0) =
      BodyReadOutcome.readError ("http: request body too large") := by
    simp [readAllCapped, hlt]
  have hc : strContains ("http: request body too large")
      ("http: request body too large") = true := by decide
  refine ⟨?_, by decide, by decide⟩
  simp [processProxyRequest, hread, hc]

/-! ## C4: what the coalescing broadcast actually delivers -/

/-- C4 (code evaluated at the failing input). With the executor plus two
callers blocked on the channel, `ch <- result; close(ch)` hands the
produced value to only one blocked waiter; the other is released by the
close with the zero value (`none`), contrary to the broadcast invariant
of the claim (and to the comment in `CoalesceRequest` itself). -/
theorem coalesce_second_waiter_gets_zero :
    coalesceRound ("models") 2 =
      { executorValue := "models",
        waiterValues := [some ("models"), none],
        keyRemoved := true } ∧
    ¬(∀ x ∈ (coalesceRound ("models") 2).waiterValues, x = some ("models")) := by
  constructor
  · rfl
  · intro h
    have hmem : (none : Option String) ∈ (coalesceRound ("models") 2).waiterValues := by
      simp [coalesceRound, sendThenClose]
    exact Option.noConfusion (h none hmem)

/-! ## C9: panics in worker-pool jobs -/

/-- C9 counterexample. The worker loop of `WorkerPool.start` calls
`job()` with no deferred recover, so a job that panics panics out of the
worker goroutine: the claim that every submitted job has its panic
recovered by the worker is false. -/
theorem worker_panic_escapes_counterexample :
    workerRunJob (JobBehavior.panics ("boom")) =
      WorkerOutcome.panicEscaped ("boom") ∧
    ¬(∀ (j : JobBehavior) (m : String),
        workerRunJob j ≠ WorkerOutcome.panicEscaped m) :=
  ⟨rfl, fun h => h (JobBehavior.panics ("boom")) ("boom") rfl⟩

/-- C9 (theorem for the amended claim). The recovery lives in the job
closure `Handler` submits, not in the worker: whatever
`processProxyRequest` does — return, or panic — the closure completes
normally (so nothing escapes the worker goroutine for these jobs), and a
panic is recorded as the `ProxyError` sent on the `done` channel. -/
theorem proxy_job_closure_recovers (b : ProcessBehavior) :
    workerRunJob (proxyJobRun b).1 = WorkerOutcome.jobCompleted ∧
    (∀ m, b = ProcessBehavior.panics m →
      (proxyJobRun b).2 =
        DoneValue.panicRecovered ("request_processing")
          ("worker panic during request processing") m) := by
  cases b with
  | returns e =>
      cases e with
      | none => exact ⟨rfl, fun m h => ProcessBehavior.noConfusion h⟩
      | some msg => exact ⟨rfl, fun m h => ProcessBehavior.noConfusion h⟩
  | panics m0 =>
      refine ⟨rfl, fun m h => ?_⟩
      cases h
      rfl

/-- Witness for the amended C9 at a concrete panicking job. -/
theorem proxy_job_closure_recovers_witness :
    workerRunJob (proxyJobRun (ProcessBehavior.panics ("boom"))).1 =
      WorkerOutcome.jobCompleted ∧
    (proxyJobRun (ProcessBehavior.panics ("boom"))).2 =
      DoneValue.panicRecovered ("request_processing")
        ("worker panic during request processing") ("boom") :=
  ⟨(proxy_job_closure_recovers (ProcessBehavior.panics ("boom"))).1,
    (proxy_job_closure_recovers (ProcessBehavior.panics ("boom"))).2 "boom" rfl⟩

/-! ## C10: GetRequestKey hashes the bare concatenation -/

/-- C10 (confirmed). The bytes fed to SHA-256 are the bare concatenation
`method ∥ url ∥ body` with no separators; a nil or non-`[]byte` body
contributes no bytes; and consequently distinct inputs with equal
concatenated octets — here the method/url split of `GET /v1/models`
shifted by one character — produce equal coalescing keys, so their
requests coalesce onto the same channel. -/
theorem request_key_bare_concatenation :
    (∀ (m u : String) (b : GoBody),
      getRequestKey m u b =
        hexEncode (sha256Bytes (strUTF8 m ++ strUTF8 u ++ goBodyOctets b))) ∧
    (∀ (m u : String),
      getRequestKeyInput m u GoBody.nil = strUTF8 m ++ strUTF8 u ∧
      getRequestKeyInput m u GoBody.nonBytes = strUTF8 m ++ strUTF8 u) ∧
    (getRequestKey ("GE") ("T/v1/models") GoBody.nil =
        getRequestKey ("GET") ("/v1/models") GoBody.nil ∧
      ("GE", "T/v1/models") ≠ ("GET", "/v1/models")) := by
  refine ⟨?_, ?_, ?_, by decide⟩
  · intro m u b
    cases b <;>
      simp [getRequestKey, getRequestKeyInput, goBodyOctets, List.append_assoc]
  · intro m u
    exact ⟨rfl, rfl⟩
  · have hinput : getRequestKeyInput ("GE") ("T/v1/models") GoBody.nil =
        getRequestKeyInput ("GET") ("/v1/models") GoBody.nil := by decide
    simpa [getRequestKey] using
      congrArg (fun l => hexEncode (sha256Bytes l)) hinput

end GCS
